import Mathlib

/-!
# Shallow embedding of the nyx_trial signal/risk engine

Prices, balances and lot sizes are modelled as rationals (`ℚ`); Python's
float arithmetic on the code paths below is plain arithmetic plus the
built-in `round` (banker's rounding), which is modelled exactly by
`pyRound`.  Candle series are lists of OHLC records; `pandas` positional
indexing is modelled by `getC` (out-of-range access, which would raise in
Python, yields a zero candle and is never relied on by a theorem).
External collaborators (the MT5 connector, the SQLite store, wall-clock
time) enter as explicit parameters.  Human-readable reason strings are
abstracted to tagged `Reason` values carrying the same data that the
source interpolates into its messages.
-/

namespace Nyx

/-! ## Python built-in `round`: banker's rounding (round half to even) -/

/-- Python's built-in `round` on a rational: round to the nearest integer,
ties to the even integer. -/
def pyRound (q : ℚ) : ℤ :=
  let f := ⌊q⌋
  if q - f < 1/2 then f
  else if 1/2 < q - f then f + 1
  else if f % 2 = 0 then f else f + 1

/-- Python's `round(x, 5)`: round to 5 decimal places, ties to even. -/
def round5 (q : ℚ) : ℚ := (pyRound (q * 100000) : ℚ) / 100000

/-! ## Configuration (src/config/settings.py) and account data
(src/database/models.MT5Account fields read by the risk manager) -/

/-- Global limits from `config/settings.py`: `MIN_LOT_SIZE = 0.01`,
`MAX_LOT_SIZE = 10.0`. -/
structure Config where
  MIN_LOT_SIZE : ℚ := 1/100
  MAX_LOT_SIZE : ℚ := 10
deriving DecidableEq

/-- The `MT5Account` fields read by `RiskManager`.  `max_lot_size` is read
via `getattr(account, 'max_lot_size', config.MAX_LOT_SIZE)`, so it may be
absent (`none`). -/
structure Account where
  risk_percentage : ℚ
  max_daily_loss_percent : ℚ
  max_open_positions : ℕ
  max_lot_size : Option ℚ := none
deriving DecidableEq

/-- The fields of `connector.get_account_info()` read by the risk manager. -/
structure AccountInfo where
  balance : ℚ
  margin_level : ℚ
deriving DecidableEq

/-- The field of `connector.get_symbol_info(symbol)` read on the sizing
path. -/
structure SymbolInfo where
  volume_step : ℚ
deriving DecidableEq

/-! ## RiskManager.calculate_position_size
(src/trading/risk_manager.py lines 35-115)

`connector.get_account_info()`, `connector.get_symbol_info(symbol)` and
`connector.calculate_lot_size(symbol, risk%, pips)` belong to the broker
connectivity layer (out of the shared sources); they enter the model as
the parameters `account_info`, `symbol_info` and `calc_lot`.
`SymbolNormalizer.get_pip_value(symbol)` is likewise passed in as
`pip_value` — it only feeds the pip count handed to `calc_lot`.  The
`except` handler returns `config.MIN_LOT_SIZE`, the same value as the two
explicit unavailable-metadata returns modelled here. -/
def calculate_position_size (cfg : Config) (account : Account)
    (account_info : Option AccountInfo) (symbol_info : Option SymbolInfo)
    (calc_lot : ℚ → ℚ → ℚ) (entry_price stop_loss pip_value : ℚ) : ℚ :=
  match account_info with
  | none => cfg.MIN_LOT_SIZE
  | some _ =>
    let risk_percent := account.risk_percentage
    let pip_multiplier := 1 / pip_value
    let stop_loss_pips := |entry_price - stop_loss| * pip_multiplier
    match symbol_info with
    | none => cfg.MIN_LOT_SIZE
    | some si =>
      let lot_size0 := calc_lot risk_percent stop_loss_pips
      let lot_size1 := min lot_size0 (account.max_lot_size.getD cfg.MAX_LOT_SIZE)
      let lot_size2 := max cfg.MIN_LOT_SIZE lot_size1
      let lot_size3 := min cfg.MAX_LOT_SIZE lot_size2
      (pyRound (lot_size3 / si.volume_step) : ℚ) * si.volume_step

/-! ## RiskManager.calculate_kelly_criterion (lines 117-166)

In Python, `avg_win / avg_loss` with `avg_loss == 0` is pre-empted by the
explicit guard; when `avg_win == 0` the ratio `R` is `0.0` and
`(1 - win_rate) / R` raises `ZeroDivisionError`, caught by the handler,
which returns `account.risk_percentage` — the second branch below. -/
def calculate_kelly_criterion (account : Account)
    (win_rate avg_win avg_loss : ℚ) : ℚ :=
  if avg_loss = 0 then account.risk_percentage
  else if avg_win = 0 then account.risk_percentage
  else
    let r := avg_win / avg_loss
    let kelly_pct := (win_rate - (1 - win_rate) / r) * 100
    max (1/10) (min kelly_pct account.risk_percentage)

/-! ## RiskManager.check_risk_limits (lines 218-276) -/

/-- Tags for the reason strings produced by `check_risk_limits`, carrying
the values the source interpolates into each message. -/
inductive RiskReason where
  | cannotGetAccountInfo
  | dailyLossLimit (daily_pnl limit : ℚ)
  | maxPositionsReached (count limit : ℕ)
  | lowMarginLevel (level : ℚ)
  | weeklyLossLimit (weekly_pnl : ℚ)
  | allChecksPassed
deriving DecidableEq

/-- `check_risk_limits`: daily loss, then open-position count, then margin
level, then weekly drawdown; the first failing check returns `False` with
its reason.  `daily_pnl`, `weekly_pnl` and `position_count` stand for the
values of `get_daily_pnl`, `get_weekly_pnl` and
`executor.get_position_count()`. -/
def check_risk_limits (account : Account) (account_info : Option AccountInfo)
    (daily_pnl weekly_pnl : ℚ) (position_count : ℕ) : Bool × RiskReason :=
  match account_info with
  | none => (false, .cannotGetAccountInfo)
  | some info =>
    let balance := info.balance
    let max_daily_loss := balance * (account.max_daily_loss_percent / 100)
    if daily_pnl < -max_daily_loss then
      (false, .dailyLossLimit daily_pnl max_daily_loss)
    else if account.max_open_positions ≤ position_count then
      (false, .maxPositionsReached position_count account.max_open_positions)
    else if info.margin_level < 200 then
      (false, .lowMarginLevel info.margin_level)
    else
      let max_weekly_loss := balance * (10/100)
      if weekly_pnl < -max_weekly_loss then
        (false, .weeklyLossLimit weekly_pnl)
      else
        (true, .allChecksPassed)

/-! ## Point of Interest detection (src/strategy/poi_detector.py) -/

/-- One OHLC bar.  The `open` column is named `open_` (`open` is a Lean
keyword). -/
structure Candle where
  open_ : ℚ
  high : ℚ
  low : ℚ
  close : ℚ
deriving DecidableEq

/-- Positional candle access, `df['col'].iloc[i]`.  Out of range (an
`IndexError` in Python) yields the zero candle; every theorem below only
depends on in-range accesses. -/
def getC (df : List Candle) (i : ℕ) : Candle := df.getD i ⟨0, 0, 0, 0⟩

/-- `POIType` enum. -/
inductive POIType where
  | ORDER_BLOCK
  | BREAKER_BLOCK
  | FAIR_VALUE_GAP
deriving DecidableEq

/-- The `PointOfInterest` dataclass.  `distance_to_liquidity` is
`float(inducement_index - poi_index)`, i.e. a (possibly negative)
candle-count difference, kept as `ℤ`.  The `timestamp` field is always
`None` for the positional indexes used here and is omitted. -/
structure PointOfInterest where
  poi_type : POIType
  price_high : ℚ
  price_low : ℚ
  candle_index : ℕ
  body_high : ℚ
  body_low : ℚ
  triggered_structure : Bool
  has_inducement : Bool
  is_unmitigated : Bool
  distance_to_liquidity : ℤ
  direction : String
  fvg_overlap : Bool := false
deriving DecidableEq

/-- `PointOfInterest.is_valid`: all three boolean flags and a non-negative
distance. -/
def PointOfInterest.is_valid (p : PointOfInterest) : Bool :=
  p.triggered_structure && p.has_inducement && p.is_unmitigated &&
    decide (0 ≤ p.distance_to_liquidity)

/-- The state `POIDetector.__init__` derives from the timeframe. -/
structure POIDetector where
  primary_lookback : ℕ
  max_poi_distance : ℕ
  fvg_min_size_percent : ℚ
deriving DecidableEq

/-- `POIDetector.__init__(timeframe)`. -/
def mkPOIDetector (timeframe : String) : POIDetector :=
  if timeframe = "M5" ∨ timeframe = "M1" then ⟨200, 50, 1/10⟩
  else if timeframe = "M15" ∨ timeframe = "M30" then ⟨200, 60, 1/10⟩
  else if timeframe = "H1" then ⟨150, 40, 1/10⟩
  else if timeframe = "H4" ∨ timeframe = "D1" then ⟨100, 30, 1/10⟩
  else ⟨200, 50, 1/10⟩

/-- `POIDetector._check_mitigation_50_percent`: scans candles
`poi_index+1 .. inducement_index` (inclusive) and reports `False` as soon
as a wick trades through the midpoint of the POI candle's wick range. -/
def check_mitigation_50_percent (df : List Candle)
    (poi_index inducement_index : ℕ) (direction : String) : Bool :=
  if inducement_index ≤ poi_index then true
  else
    let poi_high := (getC df poi_index).high
    let poi_low := (getC df poi_index).low
    let mean_threshold := (poi_high + poi_low) / 2
    (List.range' (poi_index + 1) (inducement_index - poi_index)).all fun i =>
      if direction = "bullish" then decide (mean_threshold < (getC df i).low)
      else if direction = "bearish" then decide ((getC df i).high < mean_threshold)
      else true

/-- `POIDetector._calculate_distance_to_inducement`. -/
def calculate_distance_to_inducement (poi_index inducement_index : ℕ) : ℤ :=
  (inducement_index : ℤ) - (poi_index : ℤ)

/-- `POIDetector._is_body_unmitigated` (breaker blocks): the candle body
must remain unbroken through the remainder of the series. -/
def is_body_unmitigated (df : List Candle) (candle_index : ℕ)
    (direction : String) : Bool :=
  if df.length - 1 ≤ candle_index then true
  else
    let c := getC df candle_index
    let body_high := max c.open_ c.close
    let body_low := min c.open_ c.close
    (List.range' (candle_index + 1) (df.length - (candle_index + 1))).all fun i =>
      if direction = "bullish" then decide (body_low < (getC df i).low)
      else if direction = "bearish" then decide ((getC df i).high < body_high)
      else true

/-- `POIDetector._is_fvg_unmitigated`: the gap is marked mitigated as soon
as a later candle's low touches the gap's lower edge or its high touches
the gap's upper edge. -/
def is_fvg_unmitigated (df : List Candle) (candle_index : ℕ)
    (gap_low gap_high : ℚ) : Bool :=
  if df.length - 1 ≤ candle_index then true
  else
    (List.range' (candle_index + 1) (df.length - (candle_index + 1))).all fun i =>
      decide (gap_low < (getC df i).low ∧ (getC df i).high < gap_high)

/-- Trailing 5-candle average wick range
`df['high'].iloc[i-5:i].sub(df['low'].iloc[i-5:i]).mean()`, used when
`i ≥ 5`. -/
def avg_range5 (df : List Candle) (i : ℕ) : ℚ :=
  (((List.range' (i - 5) 5).map fun j => (getC df j).high - (getC df j).low).sum) / 5

/-- The body of the `detect_order_blocks` scan loop at index `i`:
`some ob` exactly when the source appends an order block for `i`. -/
def ob_candidate (d : POIDetector) (df : List Candle) (direction : String)
    (inducement_index : ℕ) (i : ℕ) : Option PointOfInterest :=
  let c := getC df i
  if direction = "bullish" ∧ c.close < c.open_ then
    if i + 3 < df.length then
      let n1 := getC df (i + 1)
      let n2 := getC df (i + 2)
      let n3 := getC df (i + 3)
      let bullish_displacement := 2 ≤ [n1, n2, n3].countP fun x => decide (x.open_ < x.close)
      let displacement_range := max n1.high (max n2.high n3.high) - min n1.low (min n2.low n3.low)
      let avg_range := if 5 ≤ i then avg_range5 df i else displacement_range
      if bullish_displacement ∧ avg_range * (3/2) < displacement_range then
        if calculate_distance_to_inducement i inducement_index ≤ (d.max_poi_distance : ℤ) then
          some { poi_type := .ORDER_BLOCK
                 price_high := c.high
                 price_low := c.low
                 candle_index := i
                 body_high := max c.open_ c.close
                 body_low := min c.open_ c.close
                 triggered_structure := true
                 has_inducement := false
                 is_unmitigated := check_mitigation_50_percent df i inducement_index direction
                 distance_to_liquidity := calculate_distance_to_inducement i inducement_index
                 direction := direction }
        else none
      else none
    else none
  else if direction = "bearish" ∧ c.open_ < c.close then
    if i + 3 < df.length then
      let n1 := getC df (i + 1)
      let n2 := getC df (i + 2)
      let n3 := getC df (i + 3)
      let bearish_displacement := 2 ≤ [n1, n2, n3].countP fun x => decide (x.close < x.open_)
      let displacement_range := max n1.high (max n2.high n3.high) - min n1.low (min n2.low n3.low)
      let avg_range := if 5 ≤ i then avg_range5 df i else displacement_range
      if bearish_displacement ∧ avg_range * (3/2) < displacement_range then
        if calculate_distance_to_inducement i inducement_index ≤ (d.max_poi_distance : ℤ) then
          some { poi_type := .ORDER_BLOCK
                 price_high := c.high
                 price_low := c.low
                 candle_index := i
                 body_high := max c.open_ c.close
                 body_low := min c.open_ c.close
                 triggered_structure := true
                 has_inducement := false
                 is_unmitigated := check_mitigation_50_percent df i inducement_index direction
                 distance_to_liquidity := calculate_distance_to_inducement i inducement_index
                 direction := direction }
        else none
      else none
    else none
  else none

/-- Ordering used by the final `list.sort(key=lambda x:
x.distance_to_liquidity)`. -/
def distLe (a b : PointOfInterest) : Prop :=
  a.distance_to_liquidity ≤ b.distance_to_liquidity

instance : DecidableRel distLe := fun a b =>
  inferInstanceAs (Decidable (a.distance_to_liquidity ≤ b.distance_to_liquidity))

instance : IsTotal PointOfInterest distLe :=
  ⟨fun a b => le_total a.distance_to_liquidity b.distance_to_liquidity⟩

instance : IsTrans PointOfInterest distLe :=
  ⟨fun _ _ _ hab hbc => le_trans hab hbc⟩

/-- `POIDetector.detect_order_blocks`: scan the lookback window ending at
the structure break, collect candidates, sort ascending by distance to the
inducement.  Python's `list.sort` is stable; so is
`List.insertionSort`. -/
def detect_order_blocks (d : POIDetector) (df : List Candle)
    (direction : String) (inducement_index structure_break_index : Option ℕ) :
    List PointOfInterest :=
  let scan_end := structure_break_index.getD (df.length - 1)
  let ind := inducement_index.getD scan_end
  let start_index := scan_end - d.primary_lookback
  ((List.range' start_index (scan_end - start_index)).filterMap
      (ob_candidate d df direction ind)).insertionSort distLe

/-- The body of the `detect_breaker_blocks` scan loop at index `i`. -/
def bb_candidate (d : POIDetector) (df : List Candle) (direction : String)
    (inducement_index : ℕ) (i : ℕ) : Option PointOfInterest :=
  let c := getC df i
  if i + 3 < df.length then
    if direction = "bullish" then
      let broke_below := (getC df (i + 1)).low < c.low
      let n1 := getC df (i + 1)
      let n2 := getC df (i + 2)
      let n3 := getC df (i + 3)
      let has_displacement := 2 ≤ [n1, n2, n3].countP fun x => decide (x.close < x.open_)
      let body_unmitigated := is_body_unmitigated df i direction
      if broke_below ∧ has_displacement ∧ body_unmitigated = true then
        if calculate_distance_to_inducement i inducement_index ≤ (d.max_poi_distance : ℤ) then
          some { poi_type := .BREAKER_BLOCK
                 price_high := c.high
                 price_low := c.low
                 candle_index := i
                 body_high := max c.open_ c.close
                 body_low := min c.open_ c.close
                 triggered_structure := true
                 has_inducement := false
                 is_unmitigated := body_unmitigated
                 distance_to_liquidity := calculate_distance_to_inducement i inducement_index
                 direction := direction }
        else none
      else none
    else if direction = "bearish" then
      let broke_above := c.high < (getC df (i + 1)).high
      let n1 := getC df (i + 1)
      let n2 := getC df (i + 2)
      let n3 := getC df (i + 3)
      let has_displacement := 2 ≤ [n1, n2, n3].countP fun x => decide (x.open_ < x.close)
      let body_unmitigated := is_body_unmitigated df i direction
      if broke_above ∧ has_displacement ∧ body_unmitigated = true then
        if calculate_distance_to_inducement i inducement_index ≤ (d.max_poi_distance : ℤ) then
          some { poi_type := .BREAKER_BLOCK
                 price_high := c.high
                 price_low := c.low
                 candle_index := i
                 body_high := max c.open_ c.close
                 body_low := min c.open_ c.close
                 triggered_structure := true
                 has_inducement := false
                 is_unmitigated := body_unmitigated
                 distance_to_liquidity := calculate_distance_to_inducement i inducement_index
                 direction := direction }
        else none
      else none
    else none
  else none

/-- `POIDetector.detect_breaker_blocks`. -/
def detect_breaker_blocks (d : POIDetector) (df : List Candle)
    (direction : String) (inducement_index structure_break_index : Option ℕ) :
    List PointOfInterest :=
  let scan_end := structure_break_index.getD (df.length - 1)
  let ind := inducement_index.getD scan_end
  let start_index := scan_end - d.primary_lookback
  ((List.range' start_index (scan_end - start_index)).filterMap
      (bb_candidate d df direction ind)).insertionSort distLe

/-- The body of the `detect_fair_value_gaps` loop at index `i ≥ 2`. -/
def fvg_candidate (d : POIDetector) (df : List Candle) (direction : String)
    (i : ℕ) : Option PointOfInterest :=
  if direction = "bullish" then
    let gap_bottom := (getC df (i - 2)).high
    let gap_top := (getC df i).low
    if gap_bottom < gap_top then
      let gap_size := gap_top - gap_bottom
      let gap_percent := gap_size / gap_bottom * 100
      if d.fvg_min_size_percent ≤ gap_percent then
        some { poi_type := .FAIR_VALUE_GAP
               price_high := gap_top
               price_low := gap_bottom
               candle_index := i - 1
               body_high := gap_top
               body_low := gap_bottom
               triggered_structure := true
               has_inducement := false
               is_unmitigated := is_fvg_unmitigated df i gap_bottom gap_top
               distance_to_liquidity := 0
               direction := direction
               fvg_overlap := false }
      else none
    else none
  else if direction = "bearish" then
    let gap_top := (getC df (i - 2)).low
    let gap_bottom := (getC df i).high
    if gap_bottom < gap_top then
      let gap_size := gap_top - gap_bottom
      let gap_percent := gap_size / gap_top * 100
      if d.fvg_min_size_percent ≤ gap_percent then
        some { poi_type := .FAIR_VALUE_GAP
               price_high := gap_top
               price_low := gap_bottom
               candle_index := i - 1
               body_high := gap_top
               body_low := gap_bottom
               triggered_structure := true
               has_inducement := false
               is_unmitigated := is_fvg_unmitigated df i gap_bottom gap_top
               distance_to_liquidity := 0
               direction := direction
               fvg_overlap := false }
      else none
    else none
  else none

/-- `POIDetector.detect_fair_value_gaps`: loop `i` over
`range(2, len(df))`. -/
def detect_fair_value_gaps (d : POIDetector) (df : List Candle)
    (direction : String) : List PointOfInterest :=
  (List.range' 2 (df.length - 2)).filterMap (fvg_candidate d df direction)

/-- Modelled from the spec: the Setup Assembler
(`src/strategy/smc_analysis.py`, imported by `signal_generator.py` and the
tests but absent from the available sources) performs the final selection
of valid POIs by requiring the four POI-selection rules —
`triggered_structure`, `has_inducement`, `is_unmitigated`, non-negative
`distance_to_liquidity` — i.e. `PointOfInterest.is_valid`; a POI failing
any rule yields no setup (spec §4.3 step 4, §4.2 "ranked list of valid
PointOfInterest"). -/
def select_valid_pois (pois : List PointOfInterest) : List PointOfInterest :=
  pois.filter fun p => p.is_valid

/-! ## Signal deduplication (src/utils/signal_tracker.py)

The SQLite table keyed by `signal_hash` is modelled as a partial map from
canonical keys to records; SHA-256 of the canonical `|`-joined string is
modelled by the canonical tuple itself (the hash exists only to give the
tuple a stable identity).  Timestamps are rationals measured in hours, so
`timedelta(hours=cooldown_hours)` is plain subtraction and the reported
`hours_ago` is `now - last_seen`.  `signal.get('scenario', '')` and
`signal.get('poi_type', '')` are modelled by callers passing `""` for a
missing entry. -/

/-- The fields of a tracked signal used by the deduplicator. -/
structure Signal where
  symbol : String
  direction : String
  entry_price : ℚ
  scenario : String
  poi_type : String
deriving DecidableEq

/-- The canonical identity
`f"{symbol}|{direction}|{round(entry_price,5)}|{scenario}|{poi_type}"`. -/
structure SignalKey where
  symbol : String
  direction : String
  entry_rounded : ℚ
  scenario : String
  poi_type : String
deriving DecidableEq

/-- `SignalTracker._generate_signal_hash`. -/
def generate_signal_hash (s : Signal) : SignalKey :=
  { symbol := s.symbol
    direction := s.direction
    entry_rounded := round5 s.entry_price
    scenario := s.scenario
    poi_type := s.poi_type }

/-- One `signal_history` row (the columns `is_duplicate`/`record_signal`
read and write). -/
structure SignalRecord where
  last_seen : ℚ
  occurrence_count : ℕ
  sent_count : ℕ
deriving DecidableEq

/-- Tags for the reasons `is_duplicate` reports. -/
inductive DupReason where
  | duplicateSignal (hours_ago : ℚ) (occurrence_count : ℕ)
  | errorChecking (e : String)
deriving DecidableEq

/-- `SignalTracker.is_duplicate`.  The `store` argument is the outcome of
opening/querying the SQLite store: `.error e` models any exception raised
inside the `try` block, `.ok db` the table contents.  The SQL filter
`signal_hash = ? AND last_seen > ?` keeps a row only when `last_seen`
is strictly after `now - cooldown_hours`. -/
def is_duplicate (cooldown_hours : ℚ)
    (store : Except String (SignalKey → Option SignalRecord))
    (now : ℚ) (signal : Signal) : Bool × Option DupReason :=
  let h := generate_signal_hash signal
  match store with
  | .error e => (false, some (.errorChecking e))
  | .ok db =>
    match db h with
    | some r =>
      if now - cooldown_hours < r.last_seen then
        (true, some (.duplicateSignal (now - r.last_seen) r.occurrence_count))
      else (false, none)
    | none => (false, none)

/-- `SignalTracker.record_signal` (the `.ok` path): update the existing
row's `last_seen`/counters or insert a fresh row. -/
def record_signal (db : SignalKey → Option SignalRecord) (now : ℚ)
    (signal : Signal) (was_sent : Bool) : SignalKey → Option SignalRecord :=
  let h := generate_signal_hash signal
  fun k =>
    if k = h then
      match db h with
      | some r =>
        some { last_seen := now
               occurrence_count := r.occurrence_count + 1
               sent_count := r.sent_count + (if was_sent then 1 else 0) }
      | none =>
        some { last_seen := now
               occurrence_count := 1
               sent_count := if was_sent then 1 else 0 }
    else db k

/-! ## Spec-side predicate for the FVG mitigation comparison -/

/-- Modelled from the spec: "validity requires no subsequent candle fully
closing the gap" (§4.2).  A candle fully closes a gap when its wick spans
the entire gap, from at or below the lower edge to at or above the upper
edge. -/
def fully_closes_gap (c : Candle) (gap_low gap_high : ℚ) : Prop :=
  c.low ≤ gap_low ∧ gap_high ≤ c.high

instance (c : Candle) (gl gh : ℚ) : Decidable (fully_closes_gap c gl gh) :=
  inferInstanceAs (Decidable (_ ∧ _))

/-! ## Concrete data used by witnesses and counterexamples -/

/-- The default settings: `MIN_LOT_SIZE = 0.01`, `MAX_LOT_SIZE = 10.0`. -/
def cfgDefault : Config := {}

/-- A sample account: 1% risk, 5% max daily loss, 5 open positions, no
per-account `max_lot_size` attribute. -/
def acctSample : Account :=
  { risk_percentage := 1, max_daily_loss_percent := 5, max_open_positions := 5 }

/-- A sample healthy account snapshot. -/
def aiSample : AccountInfo := { balance := 10000, margin_level := 1000 }

/-- Symbol metadata with a 0.1 volume step. -/
def siSample : SymbolInfo := { volume_step := 1/10 }

/-- Nine candles: five 10-point dojis, a bearish candle at index 5, then a
three-candle bullish displacement.  The displacement candle at index 6
wicks down to 89.5, through the midpoint 97 of the index-5 candle's
89–105 wick range, so the detected order block is mitigated. -/
def dfOB : List Candle :=
  [⟨100, 105, 95, 100⟩, ⟨100, 105, 95, 100⟩, ⟨100, 105, 95, 100⟩,
   ⟨100, 105, 95, 100⟩, ⟨100, 105, 95, 100⟩,
   ⟨100, 105, 89, 90⟩,
   ⟨90, 115, 179/2, 110⟩,
   ⟨110, 122, 109, 121⟩,
   ⟨121, 126, 119, 125⟩]

/-- The (mitigated) bullish order block detected at index 5 of `dfOB`. -/
def sampleOB : PointOfInterest :=
  { poi_type := .ORDER_BLOCK
    price_high := 105
    price_low := 89
    candle_index := 5
    body_high := 100
    body_low := 90
    triggered_structure := true
    has_inducement := false
    is_unmitigated := false
    distance_to_liquidity := 3
    direction := "bullish" }

/-- Three candles with a bullish fair value gap: candle 0's high is 100,
candle 2's low is 101, a 1% gap with no later candle. -/
def dfFvg3 : List Candle :=
  [⟨199/2, 100, 99, 499/5⟩, ⟨100, 150, 199/2, 149⟩, ⟨203/2, 103, 101, 102⟩]

/-- The unmitigated fair value gap detected in `dfFvg3`. -/
def sampleFvgW : PointOfInterest :=
  { poi_type := .FAIR_VALUE_GAP
    price_high := 101
    price_low := 100
    candle_index := 1
    body_high := 101
    body_low := 100
    triggered_structure := true
    has_inducement := false
    is_unmitigated := true
    distance_to_liquidity := 0
    direction := "bullish" }

/-- `dfFvg3` followed by a candle entirely above the gap (low 102,
high 200): it never trades into the 100–101 gap, yet its high reaches
past the gap top, tripping `_is_fvg_unmitigated`. -/
def dfFvgCe : List Candle :=
  [⟨199/2, 100, 99, 499/5⟩, ⟨100, 150, 199/2, 149⟩, ⟨203/2, 103, 101, 102⟩,
   ⟨205/2, 200, 102, 199⟩]

/-- The fair value gap of `dfFvgCe`, flagged mitigated even though no
candle fully closes it. -/
def sampleFvgM : PointOfInterest :=
  { poi_type := .FAIR_VALUE_GAP
    price_high := 101
    price_low := 100
    candle_index := 1
    body_high := 101
    body_low := 100
    triggered_structure := true
    has_inducement := false
    is_unmitigated := false
    distance_to_liquidity := 0
    direction := "bullish" }

/-- A sample signal, as in the module's self-test. -/
def sigSample : Signal :=
  { symbol := "EURUSD"
    direction := "BUY"
    entry_price := 11/10
    scenario := "Reversal via MSS"
    poi_type := "OB" }

/-! ## Helper lemmas -/

theorem pyRound_abs_sub_le (q : ℚ) : |(pyRound q : ℚ) - q| ≤ 1/2 := by
  have h1 : (⌊q⌋ : ℚ) ≤ q := Int.floor_le q
  have h2 : q < ⌊q⌋ + 1 := Int.lt_floor_add_one q
  simp only [pyRound]
  split_ifs with ha hb hc
  · rw [abs_le]; constructor <;> linarith
  · rw [abs_le]; push_cast; constructor <;> linarith
  · rw [abs_le]; constructor <;> linarith
  · rw [abs_le]; push_cast; constructor <;> linarith

theorem pyRound_nonneg {q : ℚ} (h : 0 ≤ q) : 0 ≤ pyRound q := by
  have h1 : 0 ≤ ⌊q⌋ := Int.floor_nonneg.mpr h
  simp only [pyRound]
  split_ifs <;> omega

theorem ob_candidate_some {d : POIDetector} {df : List Candle} {direction : String}
    {ind i : ℕ} {p : PointOfInterest}
    (h : ob_candidate d df direction ind i = some p) :
    p.candle_index = i ∧ p.has_inducement = false ∧ p.triggered_structure = true ∧
    p.is_unmitigated = check_mitigation_50_percent df i ind direction ∧
    p.distance_to_liquidity = (ind : ℤ) - (i : ℤ) ∧
    p.price_high = (getC df i).high ∧ p.price_low = (getC df i).low := by
  simp only [ob_candidate] at h
  split_ifs at h
  all_goals injection h with h
  all_goals subst h
  all_goals exact ⟨rfl, rfl, rfl, rfl, rfl, rfl, rfl⟩

theorem bb_candidate_some {d : POIDetector} {df : List Candle} {direction : String}
    {ind i : ℕ} {p : PointOfInterest}
    (h : bb_candidate d df direction ind i = some p) :
    p.candle_index = i ∧ p.has_inducement = false ∧ p.triggered_structure = true ∧
    p.distance_to_liquidity = (ind : ℤ) - (i : ℤ) := by
  simp only [bb_candidate] at h
  split_ifs at h
  all_goals injection h with h
  all_goals subst h
  all_goals exact ⟨rfl, rfl, rfl, rfl⟩

theorem fvg_candidate_some {d : POIDetector} {df : List Candle} {direction : String}
    {i : ℕ} {p : PointOfInterest}
    (h : fvg_candidate d df direction i = some p) :
    p.has_inducement = false ∧ p.triggered_structure = true ∧ p.candle_index = i - 1 ∧
    p.price_low < p.price_high ∧
    d.fvg_min_size_percent ≤
      (p.price_high - p.price_low) /
        (if direction = "bullish" then p.price_low else p.price_high) * 100 ∧
    p.is_unmitigated = is_fvg_unmitigated df i p.price_low p.price_high := by
  simp only [fvg_candidate] at h
  split_ifs at h
  all_goals injection h with h
  all_goals subst h
  all_goals refine ⟨rfl, rfl, rfl, by assumption, ?_, rfl⟩
  · rw [if_pos ‹direction = "bullish"›]; assumption
  · rw [if_neg ‹¬direction = "bullish"›]; assumption

theorem mem_detect_order_blocks {d : POIDetector} {df : List Candle}
    {direction : String} {ii sb : Option ℕ} {p : PointOfInterest} :
    p ∈ detect_order_blocks d df direction ii sb ↔
    ∃ i ∈ List.range' (sb.getD (df.length - 1) - d.primary_lookback)
        (sb.getD (df.length - 1) - (sb.getD (df.length - 1) - d.primary_lookback)),
      ob_candidate d df direction (ii.getD (sb.getD (df.length - 1))) i = some p := by
  unfold detect_order_blocks
  rw [List.mem_insertionSort, List.mem_filterMap]

theorem mem_detect_breaker_blocks {d : POIDetector} {df : List Candle}
    {direction : String} {ii sb : Option ℕ} {p : PointOfInterest} :
    p ∈ detect_breaker_blocks d df direction ii sb ↔
    ∃ i ∈ List.range' (sb.getD (df.length - 1) - d.primary_lookback)
        (sb.getD (df.length - 1) - (sb.getD (df.length - 1) - d.primary_lookback)),
      bb_candidate d df direction (ii.getD (sb.getD (df.length - 1))) i = some p := by
  unfold detect_breaker_blocks
  rw [List.mem_insertionSort, List.mem_filterMap]

theorem mem_detect_fair_value_gaps {d : POIDetector} {df : List Candle}
    {direction : String} {p : PointOfInterest} :
    p ∈ detect_fair_value_gaps d df direction ↔
    ∃ i ∈ List.range' 2 (df.length - 2), fvg_candidate d df direction i = some p := by
  unfold detect_fair_value_gaps
  rw [List.mem_filterMap]

theorem is_fvg_unmitigated_iff (df : List Candle) (i : ℕ) (gl gh : ℚ) :
    is_fvg_unmitigated df i gl gh = true ↔
    ∀ j, i < j → j < df.length → gl < (getC df j).low ∧ (getC df j).high < gh := by
  unfold is_fvg_unmitigated
  split_ifs with h
  · refine iff_of_true rfl fun j hj1 hj2 => absurd hj2 (by omega)
  · rw [List.all_eq_true]
    constructor
    · intro hall j hj1 hj2
      have := hall j (by rw [List.mem_range'_1]; omega)
      exact of_decide_eq_true this
    · intro hall j hj
      rw [List.mem_range'_1] at hj
      exact decide_eq_true (hall j (by omega) (by omega))

theorem mkPOIDetector_fvg_min (timeframe : String) :
    (mkPOIDetector timeframe).fvg_min_size_percent = 1/10 := by
  unfold mkPOIDetector
  split_ifs <;> rfl

/-! ## Claim theorems: risk gate, Kelly cap, deduplication -/

/-- C2: `check_risk_limits` evaluates its four limits in the fixed order
daily-loss, open-position count, margin level at least 200%, weekly 10%
drawdown; the first failing check returns `(false, its reason)`; an account
past the daily-loss threshold gets the daily-loss reason regardless of the
other checks, and the result is `true` exactly when all four checks pass. -/
theorem check_risk_limits_gate (account : Account) (info : AccountInfo)
    (daily_pnl weekly_pnl : ℚ) (position_count : ℕ) :
    (daily_pnl < -(info.balance * (account.max_daily_loss_percent / 100)) →
      check_risk_limits account (some info) daily_pnl weekly_pnl position_count
        = (false, .dailyLossLimit daily_pnl (info.balance * (account.max_daily_loss_percent / 100)))) ∧
    (¬daily_pnl < -(info.balance * (account.max_daily_loss_percent / 100)) →
      account.max_open_positions ≤ position_count →
      check_risk_limits account (some info) daily_pnl weekly_pnl position_count
        = (false, .maxPositionsReached position_count account.max_open_positions)) ∧
    (¬daily_pnl < -(info.balance * (account.max_daily_loss_percent / 100)) →
      position_count < account.max_open_positions →
      info.margin_level < 200 →
      check_risk_limits account (some info) daily_pnl weekly_pnl position_count
        = (false, .lowMarginLevel info.margin_level)) ∧
    (¬daily_pnl < -(info.balance * (account.max_daily_loss_percent / 100)) →
      position_count < account.max_open_positions →
      200 ≤ info.margin_level →
      weekly_pnl < -(info.balance * (10/100)) →
      check_risk_limits account (some info) daily_pnl weekly_pnl position_count
        = (false, .weeklyLossLimit weekly_pnl)) ∧
    ((check_risk_limits account (some info) daily_pnl weekly_pnl position_count).1 = true ↔
      (-(info.balance * (account.max_daily_loss_percent / 100)) ≤ daily_pnl ∧
       position_count < account.max_open_positions ∧
       200 ≤ info.margin_level ∧
       -(info.balance * (10/100)) ≤ weekly_pnl)) := by
  refine ⟨?_, ?_, ?_, ?_, ?_⟩
  · intro h
    simp only [check_risk_limits]
    rw [if_pos h]
  · intro h1 h2
    simp only [check_risk_limits]
    rw [if_neg h1, if_pos h2]
  · intro h1 h2 h3
    simp only [check_risk_limits]
    rw [if_neg h1, if_neg (not_le.mpr h2), if_pos h3]
  · intro h1 h2 h3 h4
    simp only [check_risk_limits]
    rw [if_neg h1, if_neg (not_le.mpr h2), if_neg (not_lt.mpr h3), if_pos h4]
  · simp only [check_risk_limits]
    split_ifs with a b c dd
    · exact iff_of_false (by simp) fun hc => absurd hc.1 (not_le.mpr a)
    · exact iff_of_false (by simp) fun hc => absurd hc.2.1 (not_lt.mpr b)
    · exact iff_of_false (by simp) fun hc => absurd hc.2.2.1 (not_le.mpr c)
    · exact iff_of_false (by simp) fun hc => absurd hc.2.2.2 (not_le.mpr dd)
    · exact iff_of_true rfl ⟨not_lt.mp a, not_le.mp b, not_lt.mp c, not_lt.mp dd⟩

/-- C2 witness: for the sample account (5% daily-loss limit on a 10000
balance), a daily P&L of -501 — one past the threshold — blocks with the
daily-loss reason, and an account passing everything trades. -/
theorem check_risk_limits_gate_witness :
    check_risk_limits acctSample (some aiSample) (-501) 0 0
      = (false, .dailyLossLimit (-501)
          (aiSample.balance * (acctSample.max_daily_loss_percent / 100))) ∧
    (check_risk_limits acctSample (some aiSample) 0 0 0).1 = true :=
  ⟨(check_risk_limits_gate acctSample aiSample (-501) 0 0).1
      (by norm_num [acctSample, aiSample]),
   (check_risk_limits_gate acctSample aiSample 0 0 0).2.2.2.2.mpr
      (by norm_num [acctSample, aiSample])⟩

/-- C8: for every account with `risk_percentage ≥ 0.1` and all inputs,
`calculate_kelly_criterion` returns a value in `[0.1, risk_percentage]`
(percent units); when `avg_loss` and `avg_win` are non-zero it is exactly
the Kelly formula `win_rate − (1 − win_rate)/(avg_win/avg_loss)` (×100)
clamped to that interval, so it never exceeds the user's configured
maximum risk. -/
theorem kelly_capped (account : Account) (win_rate avg_win avg_loss : ℚ)
    (hrp : 1/10 ≤ account.risk_percentage) :
    (1/10 ≤ calculate_kelly_criterion account win_rate avg_win avg_loss ∧
     calculate_kelly_criterion account win_rate avg_win avg_loss ≤ account.risk_percentage) ∧
    (avg_loss ≠ 0 → avg_win ≠ 0 →
      calculate_kelly_criterion account win_rate avg_win avg_loss =
        max (1/10) (min ((win_rate - (1 - win_rate) / (avg_win / avg_loss)) * 100)
          account.risk_percentage)) := by
  simp only [calculate_kelly_criterion]
  split_ifs with h1 h2
  · exact ⟨⟨hrp, le_refl _⟩, fun hl _ => absurd h1 hl⟩
  · exact ⟨⟨hrp, le_refl _⟩, fun _ hw => absurd h2 hw⟩
  · exact ⟨⟨le_max_left _ _, max_le hrp (min_le_right _ _)⟩, fun _ _ => rfl⟩

/-- C8 witness: Kelly at 60% win rate, 2:1 payoff for the 1%-risk sample
account lies in `[0.1, 1]`. -/
theorem kelly_capped_witness :
    1/10 ≤ calculate_kelly_criterion acctSample (6/10) 2 1 ∧
    calculate_kelly_criterion acctSample (6/10) 2 1 ≤ acctSample.risk_percentage :=
  (kelly_capped acctSample (6/10) 2 1 (by norm_num [acctSample])).1

/-- C10: if the deduplication store lookup fails with any error,
`SignalTracker.is_duplicate` returns `(false, an error reason)` — the
deduplicator fails open, so a store failure never suppresses a signal. -/
theorem is_duplicate_fails_open (cooldown_hours : ℚ) (e : String) (now : ℚ)
    (s : Signal) :
    is_duplicate cooldown_hours (.error e) now s = (false, some (.errorChecking e)) := rfl

/-- C6: `SignalTracker` hashes the canonical tuple `(symbol, direction,
round(entry_price, 5), scenario, poi_type)`; checking a signal again after
it was recorded yields `is_duplicate = true` with an elapsed-time reason
while the cooldown has not yet elapsed, and `false` once it has. -/
theorem signal_dedup_cooldown (cooldown_hours : ℚ)
    (db : SignalKey → Option SignalRecord) (s : Signal) (t0 now : ℚ)
    (was_sent : Bool) :
    generate_signal_hash s =
      { symbol := s.symbol, direction := s.direction,
        entry_rounded := round5 s.entry_price, scenario := s.scenario,
        poi_type := s.poi_type } ∧
    (now - t0 < cooldown_hours →
      (is_duplicate cooldown_hours (.ok (record_signal db t0 s was_sent)) now s).1 = true ∧
      ∃ n, (is_duplicate cooldown_hours (.ok (record_signal db t0 s was_sent)) now s).2
          = some (.duplicateSignal (now - t0) n)) ∧
    (cooldown_hours ≤ now - t0 →
      (is_duplicate cooldown_hours (.ok (record_signal db t0 s was_sent)) now s).1 = false) := by
  refine ⟨rfl, ?_, ?_⟩
  · intro hc
    rcases hdb : db (generate_signal_hash s) with _ | r
    · have hrec : record_signal db t0 s was_sent (generate_signal_hash s) =
          some { last_seen := t0, occurrence_count := 1,
                 sent_count := if was_sent then 1 else 0 } := by
        simp [record_signal, hdb]
      simp only [is_duplicate, hrec]
      rw [if_pos (by linarith)]
      exact ⟨rfl, 1, rfl⟩
    · have hrec : record_signal db t0 s was_sent (generate_signal_hash s) =
          some { last_seen := t0, occurrence_count := r.occurrence_count + 1,
                 sent_count := r.sent_count + (if was_sent then 1 else 0) } := by
        simp [record_signal, hdb]
      simp only [is_duplicate, hrec]
      rw [if_pos (by linarith)]
      exact ⟨rfl, r.occurrence_count + 1, rfl⟩
  · intro hc
    rcases hdb : db (generate_signal_hash s) with _ | r
    · have hrec : record_signal db t0 s was_sent (generate_signal_hash s) =
          some { last_seen := t0, occurrence_count := 1,
                 sent_count := if was_sent then 1 else 0 } := by
        simp [record_signal, hdb]
      simp only [is_duplicate, hrec]
      rw [if_neg (by linarith)]
    · have hrec : record_signal db t0 s was_sent (generate_signal_hash s) =
          some { last_seen := t0, occurrence_count := r.occurrence_count + 1,
                 sent_count := r.sent_count + (if was_sent then 1 else 0) } := by
        simp [record_signal, hdb]
      simp only [is_duplicate, hrec]
      rw [if_neg (by linarith)]

/-- C6 witness: the sample EURUSD signal recorded at hour 0 is a
duplicate at hour 1 and no longer a duplicate at hour 25 under the default
24-hour cooldown. -/
theorem signal_dedup_cooldown_witness :
    ((1:ℚ) - 0 < 24 ∧
      (is_duplicate 24 (.ok (record_signal (fun _ => none) 0 sigSample true)) 1 sigSample).1
        = true) ∧
    ((24:ℚ) ≤ 25 - 0 ∧
      (is_duplicate 24 (.ok (record_signal (fun _ => none) 0 sigSample true)) 25 sigSample).1
        = false) :=
  ⟨⟨by norm_num,
    ((signal_dedup_cooldown 24 (fun _ => none) sigSample 0 1 true).2.1 (by norm_num)).1⟩,
   ⟨by norm_num,
    (signal_dedup_cooldown 24 (fun _ => none) sigSample 0 25 true).2.2 (by norm_num)⟩⟩

/-! ## Claim theorems: POI validity, ranking, mitigation -/

/-- C9: every `PointOfInterest` returned by `detect_order_blocks`,
`detect_breaker_blocks` or `detect_fair_value_gaps` has
`has_inducement = false`, and therefore `is_valid` — which requires
`triggered_structure`, `has_inducement`, `is_unmitigated` and a
non-negative `distance_to_liquidity` — is `false` for all of them. -/
theorem detectors_yield_invalid_pois (d : POIDetector) (df : List Candle)
    (direction : String) (ii sb : Option ℕ) (p : PointOfInterest)
    (h : p ∈ detect_order_blocks d df direction ii sb ∨
         p ∈ detect_breaker_blocks d df direction ii sb ∨
         p ∈ detect_fair_value_gaps d df direction) :
    p.has_inducement = false ∧ p.is_valid = false := by
  have hind : p.has_inducement = false := by
    rcases h with h | h | h
    · obtain ⟨i, -, hc⟩ := mem_detect_order_blocks.mp h
      exact (ob_candidate_some hc).2.1
    · obtain ⟨i, -, hc⟩ := mem_detect_breaker_blocks.mp h
      exact (bb_candidate_some hc).2.1
    · obtain ⟨i, -, hc⟩ := mem_detect_fair_value_gaps.mp h
      exact (fvg_candidate_some hc).1
  refine ⟨hind, ?_⟩
  simp [PointOfInterest.is_valid, hind]

/-- C9 witness: the order block detected at index 5 of `dfOB` has
`has_inducement = false` and fails `is_valid`. -/
theorem detectors_yield_invalid_pois_witness :
    sampleOB.has_inducement = false ∧ sampleOB.is_valid = false :=
  detectors_yield_invalid_pois (mkPOIDetector "M15") dfOB "bullish" none none sampleOB
    (Or.inl (mem_detect_order_blocks.mpr ⟨5, by decide, by
      show ob_candidate (mkPOIDetector "M15") dfOB "bullish" 8 5 = some sampleOB
      have hd : mkPOIDetector "M15" = ⟨200, 60, 1/10⟩ := by norm_num [mkPOIDetector]; decide
      have hr : List.range' 0 5 = [0, 1, 2, 3, 4] := rfl
      have hg0 : getC dfOB 0 = ⟨100, 105, 95, 100⟩ := rfl
      have hg1 : getC dfOB 1 = ⟨100, 105, 95, 100⟩ := rfl
      have hg2 : getC dfOB 2 = ⟨100, 105, 95, 100⟩ := rfl
      have hg3 : getC dfOB 3 = ⟨100, 105, 95, 100⟩ := rfl
      have hg4 : getC dfOB 4 = ⟨100, 105, 95, 100⟩ := rfl
      have hg5 : getC dfOB 5 = ⟨100, 105, 89, 90⟩ := rfl
      have hg6 : getC dfOB 6 = ⟨90, 115, 179/2, 110⟩ := rfl
      have hg7 : getC dfOB 7 = ⟨110, 122, 109, 121⟩ := rfl
      have hg8 : getC dfOB 8 = ⟨121, 126, 119, 125⟩ := rfl
      have hlen : dfOB.length = 9 := rfl
      have hm : check_mitigation_50_percent dfOB 5 8 "bullish" = false := by
        have hr2 : List.range' 6 3 = [6, 7, 8] := rfl
        norm_num [check_mitigation_50_percent, hg5, hg6, hr2]
      norm_num [ob_candidate, hd, hr, hg0, hg1, hg2, hg3, hg4, hg5, hg6, hg7, hg8,
        hlen, avg_range5, hm, calculate_distance_to_inducement, sampleOB]⟩))

/-- C4: the lists returned by `detect_order_blocks` and
`detect_breaker_blocks` are sorted ascending by `distance_to_liquidity`,
and among POIs with equal distance the one with the largest (most recent)
`candle_index` comes first — within one call the distance
`inducement_index − candle_index` determines the index, so equal distances
force equal indexes. -/
theorem detected_pois_sorted (d : POIDetector) (df : List Candle)
    (direction : String) (ii sb : Option ℕ) :
    ((detect_order_blocks d df direction ii sb).Sorted distLe ∧
     (detect_order_blocks d df direction ii sb).Pairwise
       (fun a b => a.distance_to_liquidity = b.distance_to_liquidity →
         b.candle_index ≤ a.candle_index)) ∧
    ((detect_breaker_blocks d df direction ii sb).Sorted distLe ∧
     (detect_breaker_blocks d df direction ii sb).Pairwise
       (fun a b => a.distance_to_liquidity = b.distance_to_liquidity →
         b.candle_index ≤ a.candle_index)) := by
  refine ⟨⟨List.sorted_insertionSort distLe _, ?_⟩,
          ⟨List.sorted_insertionSort distLe _, ?_⟩⟩
  · apply List.pairwise_of_forall_mem_list
    intro a ha b hb hd
    obtain ⟨i, -, hca⟩ := mem_detect_order_blocks.mp ha
    obtain ⟨j, -, hcb⟩ := mem_detect_order_blocks.mp hb
    have h1 := ob_candidate_some hca
    have h2 := ob_candidate_some hcb
    rw [h1.2.2.2.2.1, h2.2.2.2.2.1] at hd
    rw [h1.1, h2.1]
    omega
  · apply List.pairwise_of_forall_mem_list
    intro a ha b hb hd
    obtain ⟨i, -, hca⟩ := mem_detect_breaker_blocks.mp ha
    obtain ⟨j, -, hcb⟩ := mem_detect_breaker_blocks.mp hb
    have h1 := bb_candidate_some hca
    have h2 := bb_candidate_some hcb
    rw [h1.2.2.2, h2.2.2.2] at hd
    rw [h1.1, h2.1]
    omega

/-- C3: if a candle strictly between an order block's formation and the
inducement index trades through the midpoint of its wick range (bullish: a
low at or below the midpoint; bearish: a high at or above it), the
detected block has `is_unmitigated = false` and is excluded from the final
selection of valid POIs (`select_valid_pois`, modelled from the spec's
Setup Assembler rules). -/
theorem ob_mitigated_excluded (d : POIDetector) (df : List Candle)
    (direction : String) (ind : ℕ) (sb : Option ℕ) (p : PointOfInterest)
    (hmem : p ∈ detect_order_blocks d df direction (some ind) sb)
    (j : ℕ) (hj1 : p.candle_index < j) (hj2 : j < ind)
    (hbr : (direction = "bullish" ∧
              (getC df j).low ≤ (p.price_high + p.price_low) / 2) ∨
           (direction = "bearish" ∧
              (p.price_high + p.price_low) / 2 ≤ (getC df j).high)) :
    p.is_unmitigated = false ∧
    p ∉ select_valid_pois (detect_order_blocks d df direction (some ind) sb) := by
  obtain ⟨i, -, hc⟩ := mem_detect_order_blocks.mp hmem
  simp only [Option.getD_some] at hc
  have hchar := ob_candidate_some hc
  have hci : p.candle_index = i := hchar.1
  have hmid : ((getC df i).high + (getC df i).low) / 2
      = (p.price_high + p.price_low) / 2 := by
    rw [hchar.2.2.2.2.2.1, hchar.2.2.2.2.2.2]
  have hfalse : check_mitigation_50_percent df i ind direction = false := by
    rw [Bool.eq_false_iff]
    intro htrue
    unfold check_mitigation_50_percent at htrue
    rw [if_neg (by omega : ¬ ind ≤ i)] at htrue
    rw [List.all_eq_true] at htrue
    have hjm : j ∈ List.range' (i + 1) (ind - i) := by
      rw [List.mem_range'_1]
      omega
    have hj := htrue j hjm
    rcases hbr with ⟨hdir, hb⟩ | ⟨hdir, hb⟩
    · rw [hdir] at hj
      simp only [if_pos rfl] at hj
      have := of_decide_eq_true hj
      rw [hmid] at this
      linarith
    · rw [hdir] at hj
      simp only [if_neg (by decide : ¬("bearish" : String) = "bullish"),
        if_pos rfl] at hj
      have := of_decide_eq_true hj
      rw [hmid] at this
      linarith
  have hunmit : p.is_unmitigated = false := by
    rw [hchar.2.2.2.1, hfalse]
  refine ⟨hunmit, ?_⟩
  intro hsel
  have hval := (List.mem_filter.mp hsel).2
  simp [PointOfInterest.is_valid, hunmit] at hval

/-- C3 witness: in `dfOB` the candle at index 6 dips to 89.5, through
the midpoint 97 of the index-5 block's wick range, before the inducement
at index 8; the block is mitigated and excluded. -/
theorem ob_mitigated_excluded_witness :
    sampleOB.is_unmitigated = false ∧
    sampleOB ∉ select_valid_pois
      (detect_order_blocks (mkPOIDetector "M15") dfOB "bullish" (some 8) none) :=
  ob_mitigated_excluded (mkPOIDetector "M15") dfOB "bullish" 8 none sampleOB
    (mem_detect_order_blocks.mpr ⟨5, by decide, by
      show ob_candidate (mkPOIDetector "M15") dfOB "bullish" 8 5 = some sampleOB
      have hd : mkPOIDetector "M15" = ⟨200, 60, 1/10⟩ := by norm_num [mkPOIDetector]; decide
      have hr : List.range' 0 5 = [0, 1, 2, 3, 4] := rfl
      have hg0 : getC dfOB 0 = ⟨100, 105, 95, 100⟩ := rfl
      have hg1 : getC dfOB 1 = ⟨100, 105, 95, 100⟩ := rfl
      have hg2 : getC dfOB 2 = ⟨100, 105, 95, 100⟩ := rfl
      have hg3 : getC dfOB 3 = ⟨100, 105, 95, 100⟩ := rfl
      have hg4 : getC dfOB 4 = ⟨100, 105, 95, 100⟩ := rfl
      have hg5 : getC dfOB 5 = ⟨100, 105, 89, 90⟩ := rfl
      have hg6 : getC dfOB 6 = ⟨90, 115, 179/2, 110⟩ := rfl
      have hg7 : getC dfOB 7 = ⟨110, 122, 109, 121⟩ := rfl
      have hg8 : getC dfOB 8 = ⟨121, 126, 119, 125⟩ := rfl
      have hlen : dfOB.length = 9 := rfl
      have hm : check_mitigation_50_percent dfOB 5 8 "bullish" = false := by
        have hr2 : List.range' 6 3 = [6, 7, 8] := rfl
        norm_num [check_mitigation_50_percent, hg5, hg6, hr2]
      norm_num [ob_candidate, hd, hr, hg0, hg1, hg2, hg3, hg4, hg5, hg6, hg7, hg8,
        hlen, avg_range5, hm, calculate_distance_to_inducement, sampleOB]⟩)
    6 (by decide) (by decide)
    (Or.inl ⟨rfl, by
      have hg6 : getC dfOB 6 = ⟨90, 115, 179/2, 110⟩ := rfl
      rw [hg6]
      norm_num [sampleOB]⟩)

/-! ## Claim theorems: fair value gaps -/

/-- C5 (amended): `detect_fair_value_gaps` never returns a gap whose
size is below the minimum percentage of price (`fvg_min_size_percent`,
0.1 by construction for every timeframe), and a returned FVG has
`is_unmitigated = true` iff no subsequent candle has a low at or below the
gap bottom or a high at or above the gap top.  The original claim's
"fully closes the gap" condition is refuted by
`fvg_mitigation_counterexample`. -/
theorem fvg_min_size_and_mitigation (tf : String) (d : POIDetector)
    (df : List Candle) (direction : String) (p : PointOfInterest) :
    (mkPOIDetector tf).fvg_min_size_percent = 1/10 ∧
    (0 < d.fvg_min_size_percent → p ∈ detect_fair_value_gaps d df direction →
      (0 < (if direction = "bullish" then p.price_low else p.price_high) ∧
       d.fvg_min_size_percent ≤ (p.price_high - p.price_low) /
         (if direction = "bullish" then p.price_low else p.price_high) * 100) ∧
      (p.is_unmitigated = true ↔ ∀ j, p.candle_index + 1 < j → j < df.length →
        p.price_low < (getC df j).low ∧ (getC df j).high < p.price_high)) := by
  refine ⟨mkPOIDetector_fvg_min tf, ?_⟩
  intro hmin hmem
  obtain ⟨i, him, hc⟩ := mem_detect_fair_value_gaps.mp hmem
  rw [List.mem_range'_1] at him
  have hchar := fvg_candidate_some hc
  have hgap : 0 < p.price_high - p.price_low := by
    have := hchar.2.2.2.1
    linarith
  set denom := (if direction = "bullish" then p.price_low else p.price_high)
    with hdenom
  have hle := hchar.2.2.2.2.1
  have hpos : 0 < denom := by
    rcases lt_trichotomy denom 0 with hneg | hzero | hgt
    · exfalso
      have h2 : (p.price_high - p.price_low) / denom * 100 < 0 :=
        mul_neg_of_neg_of_pos (div_neg_of_pos_of_neg hgap hneg) (by norm_num)
      linarith
    · exfalso
      rw [hzero, div_zero, zero_mul] at hle
      linarith
    · exact hgt
  refine ⟨⟨hpos, hle⟩, ?_⟩
  have hieq : p.candle_index + 1 = i := by
    have := hchar.2.2.1
    omega
  rw [hchar.2.2.2.2.2, is_fvg_unmitigated_iff, hieq]

/-- C5 counterexample: in `dfFvgCe` the only candle after the 100–101
gap lies entirely above it (low 102), so no subsequent candle fully closes
the gap, yet the returned FVG has `is_unmitigated = false` — refuting the
claim that `is_unmitigated` is true iff no subsequent candle fully closes
the gap. -/
theorem fvg_mitigation_counterexample :
    sampleFvgM ∈ detect_fair_value_gaps (mkPOIDetector "M15") dfFvgCe "bullish" ∧
    sampleFvgM.is_unmitigated = false ∧
    sampleFvgM.candle_index = 1 ∧ dfFvgCe.length = 4 ∧
    ¬ fully_closes_gap (getC dfFvgCe 3) sampleFvgM.price_low sampleFvgM.price_high := by
  refine ⟨?_, rfl, rfl, rfl, ?_⟩
  · apply mem_detect_fair_value_gaps.mpr
    refine ⟨2, by decide, ?_⟩
    have hg0 : getC dfFvgCe 0 = ⟨199/2, 100, 99, 499/5⟩ := rfl
    have hg2 : getC dfFvgCe 2 = ⟨203/2, 103, 101, 102⟩ := rfl
    have hd : mkPOIDetector "M15" = ⟨200, 60, 1/10⟩ := by norm_num [mkPOIDetector]; decide
    have hu : is_fvg_unmitigated dfFvgCe 2 100 101 = false := by
      have hg3 : getC dfFvgCe 3 = ⟨205/2, 200, 102, 199⟩ := rfl
      have hlen : dfFvgCe.length = 4 := rfl
      have hr : List.range' 3 1 = [3] := rfl
      norm_num [is_fvg_unmitigated, hlen, hr, hg3]
    norm_num [fvg_candidate, hd, hg0, hg2, hu, sampleFvgM]
  · have hg3 : getC dfFvgCe 3 = ⟨205/2, 200, 102, 199⟩ := rfl
    rw [hg3]
    norm_num [fully_closes_gap, sampleFvgM]

/-- C5 witness: the 1% gap of `dfFvg3` is returned, meets the 0.1%
minimum, and is unmitigated with no candles after it. -/
theorem fvg_min_size_and_mitigation_witness :
    (0:ℚ) < (mkPOIDetector "M15").fvg_min_size_percent ∧
    sampleFvgW ∈ detect_fair_value_gaps (mkPOIDetector "M15") dfFvg3 "bullish" ∧
    ((0 < (if ("bullish" : String) = "bullish" then sampleFvgW.price_low
           else sampleFvgW.price_high) ∧
      (mkPOIDetector "M15").fvg_min_size_percent ≤
        (sampleFvgW.price_high - sampleFvgW.price_low) /
          (if ("bullish" : String) = "bullish" then sampleFvgW.price_low
           else sampleFvgW.price_high) * 100) ∧
     (sampleFvgW.is_unmitigated = true ↔
       ∀ j, sampleFvgW.candle_index + 1 < j → j < dfFvg3.length →
         sampleFvgW.price_low < (getC dfFvg3 j).low ∧
         (getC dfFvg3 j).high < sampleFvgW.price_high)) := by
  have hpos : (0:ℚ) < (mkPOIDetector "M15").fvg_min_size_percent := by
    rw [mkPOIDetector_fvg_min]
    norm_num
  have hmem : sampleFvgW ∈ detect_fair_value_gaps (mkPOIDetector "M15") dfFvg3 "bullish" := by
    apply mem_detect_fair_value_gaps.mpr
    refine ⟨2, by decide, ?_⟩
    have hg0 : getC dfFvg3 0 = ⟨199/2, 100, 99, 499/5⟩ := rfl
    have hg2 : getC dfFvg3 2 = ⟨203/2, 103, 101, 102⟩ := rfl
    have hd : mkPOIDetector "M15" = ⟨200, 60, 1/10⟩ := by norm_num [mkPOIDetector]; decide
    have hu : is_fvg_unmitigated dfFvg3 2 100 101 = true := rfl
    norm_num [fvg_candidate, hd, hg0, hg2, hu, sampleFvgW]
  exact ⟨hpos, hmem,
    (fvg_min_size_and_mitigation "M15" (mkPOIDetector "M15") dfFvg3 "bullish"
      sampleFvgW).2 hpos hmem⟩

/-! ## Claim theorems: position sizing -/

/-- C1 (amended): on the normal path `calculate_position_size` returns
the lot clamped to `[MIN_LOT_SIZE, MAX_LOT_SIZE]` and then rounded to the
NEAREST lot step (Python `round`, ties to even) — not rounded down — and
the result therefore lies within half a lot step of that interval.  The
original "rounded down / within the interval" claim is refuted by
`position_size_rounding_counterexample`. -/
theorem position_size_step_rounding (cfg : Config) (account : Account)
    (ai : AccountInfo) (si : SymbolInfo) (calc_lot : ℚ → ℚ → ℚ)
    (entry_price stop_loss pip_value : ℚ)
    (hstep : 0 < si.volume_step) (hmm : cfg.MIN_LOT_SIZE ≤ cfg.MAX_LOT_SIZE) :
    calculate_position_size cfg account (some ai) (some si) calc_lot
        entry_price stop_loss pip_value
      = (pyRound ((min cfg.MAX_LOT_SIZE (max cfg.MIN_LOT_SIZE
          (min (calc_lot account.risk_percentage
            (|entry_price - stop_loss| * (1 / pip_value)))
            (account.max_lot_size.getD cfg.MAX_LOT_SIZE)))) / si.volume_step) : ℚ)
          * si.volume_step ∧
    cfg.MIN_LOT_SIZE - si.volume_step / 2
      ≤ calculate_position_size cfg account (some ai) (some si) calc_lot
          entry_price stop_loss pip_value ∧
    calculate_position_size cfg account (some ai) (some si) calc_lot
        entry_price stop_loss pip_value
      ≤ cfg.MAX_LOT_SIZE + si.volume_step / 2 := by
  have key : ∀ x : ℚ, cfg.MIN_LOT_SIZE ≤ x → x ≤ cfg.MAX_LOT_SIZE →
      cfg.MIN_LOT_SIZE - si.volume_step / 2
        ≤ (pyRound (x / si.volume_step) : ℚ) * si.volume_step ∧
      (pyRound (x / si.volume_step) : ℚ) * si.volume_step
        ≤ cfg.MAX_LOT_SIZE + si.volume_step / 2 := by
    intro x h1 h2
    have habs := pyRound_abs_sub_le (x / si.volume_step)
    rw [abs_le] at habs
    have hq : x / si.volume_step * si.volume_step = x :=
      div_mul_cancel₀ x (ne_of_gt hstep)
    constructor
    · have hm : (x / si.volume_step - 1/2) * si.volume_step
          ≤ (pyRound (x / si.volume_step) : ℚ) * si.volume_step :=
        mul_le_mul_of_nonneg_right (by linarith [habs.1]) (le_of_lt hstep)
      have he : (x / si.volume_step - 1/2) * si.volume_step
          = x - si.volume_step / 2 := by
        rw [sub_mul, hq]
        ring
      linarith
    · have hm : (pyRound (x / si.volume_step) : ℚ) * si.volume_step
          ≤ (x / si.volume_step + 1/2) * si.volume_step :=
        mul_le_mul_of_nonneg_right (by linarith [habs.2]) (le_of_lt hstep)
      have he : (x / si.volume_step + 1/2) * si.volume_step
          = x + si.volume_step / 2 := by
        rw [add_mul, hq]
        ring
      linarith
  have h0 : calculate_position_size cfg account (some ai) (some si) calc_lot
        entry_price stop_loss pip_value
      = (pyRound ((min cfg.MAX_LOT_SIZE (max cfg.MIN_LOT_SIZE
          (min (calc_lot account.risk_percentage
            (|entry_price - stop_loss| * (1 / pip_value)))
            (account.max_lot_size.getD cfg.MAX_LOT_SIZE)))) / si.volume_step) : ℚ)
          * si.volume_step := rfl
  refine ⟨h0, ?_, ?_⟩
  · rw [h0]
    exact (key _ (le_min hmm (le_max_left _ _)) (min_le_left _ _)).1
  · rw [h0]
    exact (key _ (le_min hmm (le_max_left _ _)) (min_le_left _ _)).2

/-- C1 witness: with the default config and a 0.1 lot step, the bound
`MIN_LOT_SIZE − step/2 ≤ result` holds at a concrete input. -/
theorem position_size_step_rounding_witness :
    (0:ℚ) < siSample.volume_step ∧
    cfgDefault.MIN_LOT_SIZE ≤ cfgDefault.MAX_LOT_SIZE ∧
    cfgDefault.MIN_LOT_SIZE - siSample.volume_step / 2
      ≤ calculate_position_size cfgDefault acctSample (some aiSample) (some siSample)
          (fun _ _ => 17/100) (11/10) (109/100) (1/10000) :=
  ⟨by norm_num [siSample], by norm_num [cfgDefault],
   (position_size_step_rounding cfgDefault acctSample aiSample siSample
      (fun _ _ => 17/100) (11/10) (109/100) (1/10000)
      (by norm_num [siSample]) (by norm_num [cfgDefault])).2.1⟩

/-- C1 counterexample: a connector lot of 0.17 with step 0.1 is
returned as 0.2 — rounded up, not down (rounding down gives 0.1) — and a
connector lot of 0.01 with step 0.1 is returned as 0.0, outside
`[MIN_LOT_SIZE, MAX_LOT_SIZE]`. -/
theorem position_size_rounding_counterexample :
    calculate_position_size cfgDefault acctSample (some aiSample) (some siSample)
      (fun _ _ => 17/100) (11/10) (109/100) (1/10000) = 1/5 ∧
    (⌊((17:ℚ)/100) / (1/10)⌋ : ℚ) * (1/10) = 1/10 ∧
    ((1:ℚ)/5 ≠ 1/10) ∧
    calculate_position_size cfgDefault acctSample (some aiSample) (some siSample)
      (fun _ _ => 1/100) (11/10) (109/100) (1/10000) = 0 ∧
    ¬ cfgDefault.MIN_LOT_SIZE ≤ 0 := by
  have hfl : ⌊((17:ℚ)/10)⌋ = 1 := by
    rw [Int.floor_eq_iff]; norm_num
  have hp : pyRound ((17:ℚ)/10) = 2 := by
    simp only [pyRound, hfl]
    norm_num
  have hfl0 : ⌊((1:ℚ)/10)⌋ = 0 := by
    rw [Int.floor_eq_iff]; norm_num
  have hp0 : pyRound ((1:ℚ)/10) = 0 := by
    simp only [pyRound, hfl0]
    norm_num
  refine ⟨?_, ?_, by norm_num, ?_, by norm_num [cfgDefault]⟩
  · have h0 : calculate_position_size cfgDefault acctSample (some aiSample)
        (some siSample) (fun _ _ => 17/100) (11/10) (109/100) (1/10000)
        = (pyRound ((min cfgDefault.MAX_LOT_SIZE (max cfgDefault.MIN_LOT_SIZE
            (min ((17:ℚ)/100)
              (acctSample.max_lot_size.getD cfgDefault.MAX_LOT_SIZE))))
            / siSample.volume_step) : ℚ) * siSample.volume_step := rfl
    have harg : min cfgDefault.MAX_LOT_SIZE (max cfgDefault.MIN_LOT_SIZE
        (min ((17:ℚ)/100) (acctSample.max_lot_size.getD cfgDefault.MAX_LOT_SIZE)))
          / siSample.volume_step = 17/10 := by
      norm_num [cfgDefault, acctSample, siSample, min_def, max_def]
    rw [h0, harg, hp]
    norm_num [siSample]
  · rw [show (⌊((17:ℚ)/100) / (1/10)⌋ : ℤ) = ⌊((17:ℚ)/10)⌋ by norm_num, hfl]
    norm_num
  · have h0 : calculate_position_size cfgDefault acctSample (some aiSample)
        (some siSample) (fun _ _ => 1/100) (11/10) (109/100) (1/10000)
        = (pyRound ((min cfgDefault.MAX_LOT_SIZE (max cfgDefault.MIN_LOT_SIZE
            (min ((1:ℚ)/100)
              (acctSample.max_lot_size.getD cfgDefault.MAX_LOT_SIZE))))
            / siSample.volume_step) : ℚ) * siSample.volume_step := rfl
    have harg : min cfgDefault.MAX_LOT_SIZE (max cfgDefault.MIN_LOT_SIZE
        (min ((1:ℚ)/100) (acctSample.max_lot_size.getD cfgDefault.MAX_LOT_SIZE)))
          / siSample.volume_step = 1/10 := by
      norm_num [cfgDefault, acctSample, siSample, min_def, max_def]
    rw [h0, harg, hp0]
    norm_num

/-- C7 (amended): if account info or symbol metadata is unavailable,
`calculate_position_size` returns the configured minimum lot size; on the
normal path the result is never negative (for a positive lot step and
`0 < MIN_LOT_SIZE ≤ MAX_LOT_SIZE`), but it can be zero — the original
"never returns zero" claim is refuted by
`position_size_zero_counterexample`. -/
theorem position_size_fails_safe (cfg : Config) (account : Account)
    (calc_lot : ℚ → ℚ → ℚ) (entry_price stop_loss pip_value : ℚ) :
    (∀ symbol_info, calculate_position_size cfg account none symbol_info calc_lot
        entry_price stop_loss pip_value = cfg.MIN_LOT_SIZE) ∧
    (∀ ai, calculate_position_size cfg account (some ai) none calc_lot
        entry_price stop_loss pip_value = cfg.MIN_LOT_SIZE) ∧
    (∀ ai si, 0 < si.volume_step → 0 < cfg.MIN_LOT_SIZE →
      cfg.MIN_LOT_SIZE ≤ cfg.MAX_LOT_SIZE →
      0 ≤ calculate_position_size cfg account (some ai) (some si) calc_lot
        entry_price stop_loss pip_value) := by
  refine ⟨fun _ => rfl, fun _ => rfl, ?_⟩
  intro ai si hstep hmin hmm
  have h0 : calculate_position_size cfg account (some ai) (some si) calc_lot
        entry_price stop_loss pip_value
      = (pyRound ((min cfg.MAX_LOT_SIZE (max cfg.MIN_LOT_SIZE
          (min (calc_lot account.risk_percentage
            (|entry_price - stop_loss| * (1 / pip_value)))
            (account.max_lot_size.getD cfg.MAX_LOT_SIZE)))) / si.volume_step) : ℚ)
          * si.volume_step := rfl
  rw [h0]
  have hc : 0 < min cfg.MAX_LOT_SIZE (max cfg.MIN_LOT_SIZE
      (min (calc_lot account.risk_percentage
        (|entry_price - stop_loss| * (1 / pip_value)))
        (account.max_lot_size.getD cfg.MAX_LOT_SIZE))) :=
    lt_of_lt_of_le hmin (le_min hmm (le_max_left _ _))
  have hq : 0 ≤ (pyRound (min cfg.MAX_LOT_SIZE (max cfg.MIN_LOT_SIZE
      (min (calc_lot account.risk_percentage
        (|entry_price - stop_loss| * (1 / pip_value)))
        (account.max_lot_size.getD cfg.MAX_LOT_SIZE)) ) / si.volume_step) : ℤ) :=
    pyRound_nonneg (le_of_lt (div_pos hc hstep))
  exact mul_nonneg (by exact_mod_cast hq) (le_of_lt hstep)

/-- C7 witness: both unavailable-metadata paths return `MIN_LOT_SIZE`
at a concrete input, and the normal path is non-negative there. -/
theorem position_size_fails_safe_witness :
    calculate_position_size cfgDefault acctSample none (some siSample)
      (fun _ _ => 17/100) (11/10) (109/100) (1/10000) = cfgDefault.MIN_LOT_SIZE ∧
    calculate_position_size cfgDefault acctSample (some aiSample) none
      (fun _ _ => 17/100) (11/10) (109/100) (1/10000) = cfgDefault.MIN_LOT_SIZE ∧
    0 ≤ calculate_position_size cfgDefault acctSample (some aiSample) (some siSample)
      (fun _ _ => 17/100) (11/10) (109/100) (1/10000) :=
  ⟨(position_size_fails_safe cfgDefault acctSample (fun _ _ => 17/100)
      (11/10) (109/100) (1/10000)).1 (some siSample),
   (position_size_fails_safe cfgDefault acctSample (fun _ _ => 17/100)
      (11/10) (109/100) (1/10000)).2.1 aiSample,
   (position_size_fails_safe cfgDefault acctSample (fun _ _ => 17/100)
      (11/10) (109/100) (1/10000)).2.2 aiSample siSample
      (by norm_num [siSample]) (by norm_num [cfgDefault]) (by norm_num [cfgDefault])⟩

/-- C7 counterexample: a clamped lot of 0.01 with volume step 0.1
rounds to zero steps, so `calculate_position_size` returns 0 — refuting
"never returns a zero or negative lot size". -/
theorem position_size_zero_counterexample :
    calculate_position_size cfgDefault acctSample (some aiSample) (some siSample)
      (fun _ _ => 1/100) (11/10) (109/100) (1/10000) = 0 ∧
    ¬ (0 < calculate_position_size cfgDefault acctSample (some aiSample) (some siSample)
      (fun _ _ => 1/100) (11/10) (109/100) (1/10000)) := by
  have hfl0 : ⌊((1:ℚ)/10)⌋ = 0 := by
    rw [Int.floor_eq_iff]; norm_num
  have hp0 : pyRound ((1:ℚ)/10) = 0 := by
    simp only [pyRound, hfl0]
    norm_num
  have h0 : calculate_position_size cfgDefault acctSample (some aiSample)
      (some siSample) (fun _ _ => 1/100) (11/10) (109/100) (1/10000)
      = (pyRound ((min cfgDefault.MAX_LOT_SIZE (max cfgDefault.MIN_LOT_SIZE
          (min ((1:ℚ)/100)
            (acctSample.max_lot_size.getD cfgDefault.MAX_LOT_SIZE))))
          / siSample.volume_step) : ℚ) * siSample.volume_step := rfl
  have harg : min cfgDefault.MAX_LOT_SIZE (max cfgDefault.MIN_LOT_SIZE
      (min ((1:ℚ)/100) (acctSample.max_lot_size.getD cfgDefault.MAX_LOT_SIZE)))
        / siSample.volume_step = 1/10 := by
    norm_num [cfgDefault, acctSample, siSample, min_def, max_def]
  constructor
  · rw [h0, harg, hp0]
    norm_num
  · rw [h0, harg, hp0]
    norm_num

end Nyx
